import Mathlib

/-!
Shallow embedding of the go-shell process controller (app.go).

The embedding models the App process-lifecycle controller, its background
completion watcher, and the exit-status/error disambiguation logic. OS
effects (process launch, wait, signal delivery, group-id lookup) are passed
in as explicit oracle parameters; the unbuffered completion channel is
modelled by its receiver-side view; Go panics are modelled by a dedicated
result constructor.
-/

/-- Models syscall.WaitStatus: the Sys() payload of an exec.ExitError on a
POSIX platform, exposing the numeric exit status via ExitStatus(). -/
structure WaitStatus where
  exitStatus : Int
deriving DecidableEq, Repr

/-- Models the Sys() payload of an exec.ExitError: either a syscall.WaitStatus
or some other platform-specific value (for which the type assertion in
asyncWait fails). -/
inductive SysValue where
  | waitStatus (stat : WaitStatus)
  | otherSys
deriving DecidableEq, Repr

/-- Go error values relevant to the controller: an *exec.ExitError carrying a
Sys() payload, or any other error identified by its message. -/
inductive GoError where
  | exitError (sys : SysValue)
  | errorString (msg : String)
deriving DecidableEq, Repr

/-- ExitCodeOrError keeps the exit code from application termination, or the
error if the application failed at any stage (app.go lines 14-17). -/
structure ExitCodeOrError where
  ExitCode : Int
  Error : Option GoError
deriving DecidableEq, Repr

/-- Models exec.Cmd: the command specification plus the process handle.
args excludes the command name itself; process is the pid once launched,
none before a successful start (the nil *os.Process). -/
structure Cmd where
  path : String
  args : List String
  env : Option (List String)
  setpgid : Bool
  stdin : Option Nat
  stdout : Option Nat
  stderr : Option Nat
  process : Option Int
deriving DecidableEq, Repr

/-- Models exec.Command name args: a command with the given path and
arguments, no environment override, no wired stdio, not yet started. -/
def execCommand (name : String) (args : List String) : Cmd :=
  { path := name, args := args, env := none, setpgid := false,
    stdin := none, stdout := none, stderr := none, process := none }

/-- Receiver-side view of the unbuffered completion channel waitCh at the
moment of a receive: a sender is offering a value, or the channel is closed
and drained, or it is open with no sender (a receive would block). -/
inductive ChanRecvView where
  | noSender
  | readyValue (st : ExitCodeOrError)
  | closedDrained
deriving DecidableEq, Repr

/-- App struct (app.go lines 23-27): the command, the wait channel (none
before Start), and the atomic.Value cache of the terminal result (none
before the watcher's first Store). watcherSpawned records that the
asyncWait goroutine was launched. -/
structure App where
  cmd : Cmd
  waitCh : Option ChanRecvView
  exitCodeOrError : Option ExitCodeOrError
  watcherSpawned : Bool
deriving DecidableEq, Repr

/-- NewApp (app.go lines 31-38): build the command, set Setpgid so the
process starts in its own process group, and wrap it in a fresh App. -/
def NewApp (name : String) (args : List String) : App :=
  { cmd := { execCommand name args with setpgid := true },
    waitCh := none, exitCodeOrError := none, watcherSpawned := false }

/-- AddEnvironments (app.go lines 41-46): if no environment was set yet,
seed it with the current process environment osEnviron, then append the
given key=value entries. -/
def App.AddEnvironments (osEnviron : List String) (app : App)
    (env : List String) : App :=
  let base := match app.cmd.env with
    | none => osEnviron
    | some e => e
  { app with cmd := { app.cmd with env := some (base ++ env) } }

/-- The normalization of the cmd.Wait() result performed by asyncWait
(app.go lines 78-87): an exec.ExitError whose Sys() is a syscall.WaitStatus
becomes a bare exit code with the error reset to nil; any other outcome
keeps the error (possibly nil) with exit code 0. -/
def classifyWait : Option GoError → Int × Option GoError
  | none => (0, none)
  | some (GoError.exitError (SysValue.waitStatus stat)) => (stat.exitStatus, none)
  | some e => (0, some e)

/-- Observable actions of the completion watcher on the shared state. -/
inductive WatchEvent where
  | store (st : ExitCodeOrError)
  | send (st : ExitCodeOrError)
  | closeCh
deriving DecidableEq, Repr

/-- sendExitCodeOrError (app.go lines 67-72): store the pair into the
atomic cache, then send the same pair on the wait channel. -/
def sendExitCodeOrErrorEvents (exitCode : Int) (err : Option GoError) :
    List WatchEvent :=
  [WatchEvent.store ⟨exitCode, err⟩, WatchEvent.send ⟨exitCode, err⟩]

/-- Body of asyncWait after cmd.Wait() returned waitErr: classify the
outcome and perform the store-then-send of the normalized pair. -/
def asyncWaitBody (waitErr : Option GoError) : List WatchEvent :=
  sendExitCodeOrErrorEvents (classifyWait waitErr).1 (classifyWait waitErr).2

/-- Trace of one asyncWait execution (app.go lines 74-89) whose body is cut
short after k steps by an unexpected path; the deferred close(app.waitCh)
still runs at the end. Any k at least the body length is the normal
complete execution. -/
def asyncWaitTrace (waitErr : Option GoError) (k : Nat) : List WatchEvent :=
  (asyncWaitBody waitErr).take k ++ [WatchEvent.closeCh]

/-- Outcome of a Go channel receive st, ok := ch: a delivered value with
ok, or blocking forever. -/
inductive RecvOutcome where
  | received (st : ExitCodeOrError) (ok : Bool)
  | blocks
deriving DecidableEq, Repr

/-- Receive on the modelled channel view: a ready value is delivered with
ok true; a closed drained channel yields the zero value with ok false; an
open channel with no sender blocks. -/
def chanRecv : ChanRecvView → RecvOutcome
  | ChanRecvView.readyValue st => RecvOutcome.received st true
  | ChanRecvView.closedDrained => RecvOutcome.received ⟨0, none⟩ false
  | ChanRecvView.noSender => RecvOutcome.blocks

/-- App.Wait (app.go lines 137-144) at a moment when the channel is in view
ch: on a successful receive return the value; on a closed drained channel
return exit code 0 with the already-exited sentinel error; none models a
receive that blocks forever. -/
def WaitModel (ch : ChanRecvView) : Option ExitCodeOrError :=
  match chanRecv ch with
  | RecvOutcome.received st true => some st
  | RecvOutcome.received _ false =>
      some ⟨0, some (GoError.errorString ("Exited already"))⟩
  | RecvOutcome.blocks => none

/-- App.Start (app.go lines 94-111): wire each non-nil stdio stream, then
attempt the OS launch (the outcome is the launch oracle). On failure return
the error with the controller otherwise untouched; on success record the
process handle, create a fresh wait channel, spawn the watcher, and return
the channel. -/
def App.Start (launch : Except GoError Int) (app : App)
    (stdin stdout stderr : Option Nat) : Except GoError ChanRecvView × App :=
  let cmd0 : Cmd := { app.cmd with
    stdin := match stdin with | some s => some s | none => app.cmd.stdin,
    stdout := match stdout with | some s => some s | none => app.cmd.stdout,
    stderr := match stderr with | some s => some s | none => app.cmd.stderr }
  let app0 : App := { app with cmd := cmd0 }
  match launch with
  | Except.error e => (Except.error e, app0)
  | Except.ok pid =>
      (Except.ok ChanRecvView.noSender,
        { app0 with cmd := { cmd0 with process := some pid },
                    waitCh := some ChanRecvView.noSender,
                    watcherSpawned := true })

/-- App.Run (app.go lines 52-65): Start, and if the launch failed return
exit code 0 with that error; otherwise Wait for the terminal result.
chAtWait is the channel view at the moment Wait performs its receive. -/
def App.Run (launch : Except GoError Int) (chAtWait : ChanRecvView)
    (app : App) (stdin stdout stderr : Option Nat) : Option ExitCodeOrError :=
  match App.Start launch app stdin stdout stderr with
  | (Except.error e, _) => some ⟨0, some e⟩
  | (Except.ok _, _) => WaitModel chAtWait

/-- Modelled from the spec for comparison with App.Run: the composition
Start followed, on Start success, by Wait returning its value, and on Start
failure a terminal result carrying that launch error with exit code 0. -/
def RunSpecComposition (launch : Except GoError Int) (chAtWait : ChanRecvView)
    (app : App) (stdin stdout stderr : Option Nat) : Option ExitCodeOrError :=
  match (App.Start launch app stdin stdout stderr).1 with
  | Except.error e => some ⟨0, some e⟩
  | Except.ok _ => WaitModel chAtWait

/-- App.CheckIsInstalled (app.go lines 115-127): build a controller running
the which utility on the target path, run it (runResult is the oracle for
that synchronous run), and map the outcome to an error. The constructed
lookup controller is returned alongside so its shape is observable. -/
def App.CheckIsInstalled (runResult : ExitCodeOrError) (app : App) :
    App × Option GoError :=
  let whApp := NewApp ("which") ([app.cmd.path])
  let st := runResult
  (whApp,
    match st.Error with
    | some e => some e
    | none =>
        if st.ExitCode ≠ 0 then
          some (GoError.errorString
            (("App \"" ++ app.cmd.path) ++ ("\" does not exist")))
        else none)

/-- Result of a Go call that may panic. -/
inductive GoResult (α : Type) where
  | ok (a : α)
  | panicked (msg : String)
deriving DecidableEq, Repr

/-- Message of the panic raised by a failed interface type assertion. -/
def nilAssertionPanicMsg : String :=
  "interface conversion: interface is nil, not *shell.ExitCodeOrError"

/-- Message of the panic raised by dereferencing a nil pointer. -/
def nilProcessPanicMsg : String :=
  "runtime error: invalid memory address or nil pointer dereference"

/-- The App.ExitCodeOrError method (app.go lines 130-133): atomic Load of
the cached result followed by an unconditional type assertion; a nil load
makes the assertion panic. -/
def App.exitCodeOrErrorQuery (app : App) : GoResult ExitCodeOrError :=
  match app.exitCodeOrError with
  | none => GoResult.panicked nilAssertionPanicMsg
  | some st => GoResult.ok st

/-- Signal number of syscall.SIGKILL. -/
def SIGKILL : Nat := 9

/-- Observable OS-facing steps taken by Kill, in order. -/
inductive KillStep where
  | getpgidCall (pid : Int)
  | killSignalCall (target : Int) (sig : Nat)
  | processKillCall
  | waitCall
deriving DecidableEq, Repr

/-- OS oracles consumed by Kill: syscall.Getpgid, syscall.Kill, the
fallback Process.Kill, and the terminal result that App.Wait returns once
the watcher has published it. -/
structure KillEnv where
  getpgid : Int → Except GoError Int
  killSignal : Int → Nat → Option GoError
  processKill : Option GoError
  waitResult : ExitCodeOrError

/-- App.Kill (app.go lines 147-171). Both branches dereference
app.cmd.Process first (reading Pid, or signalling through it), so a
controller that never launched panics. On a group-kill platform: resolve
the group id, on error return it; signal SIGKILL to the negated group id,
on error return it; otherwise Wait and return the published result's
error. On other platforms: kill only the immediate process, then Wait. The
returned list records the steps performed, in order. -/
def App.Kill (supportsGroups : Bool) (env : KillEnv) (app : App) :
    GoResult (Option GoError × List KillStep) :=
  match app.cmd.process with
  | none => GoResult.panicked nilProcessPanicMsg
  | some pid =>
    if supportsGroups then
      match env.getpgid pid with
      | Except.error e => GoResult.ok (some e, [KillStep.getpgidCall pid])
      | Except.ok pgid =>
        match env.killSignal (-pgid) SIGKILL with
        | some e => GoResult.ok (some e,
            [KillStep.getpgidCall pid, KillStep.killSignalCall (-pgid) SIGKILL])
        | none => GoResult.ok (env.waitResult.Error,
            [KillStep.getpgidCall pid, KillStep.killSignalCall (-pgid) SIGKILL,
             KillStep.waitCall])
    else
      match env.processKill with
      | some e => GoResult.ok (some e, [KillStep.processKillCall])
      | none => GoResult.ok (env.waitResult.Error,
          [KillStep.processKillCall, KillStep.waitCall])

/-- C1: the watcher's normalization of a wait error: an error that encodes
an abnormal-exit status (an exec.ExitError whose Sys() is a
syscall.WaitStatus) yields that numeric exit code with the error discarded;
every other wait error is kept as-is and published alongside exit code 0. -/
theorem watcher_classifies_wait_error (e : GoError) :
    (∀ stat : WaitStatus, e = GoError.exitError (SysValue.waitStatus stat) →
      classifyWait (some e) = (stat.exitStatus, none)) ∧
    ((∀ stat : WaitStatus, e ≠ GoError.exitError (SysValue.waitStatus stat)) →
      classifyWait (some e) = (0, some e)) := by
  constructor
  · intro stat h
    subst h
    rfl
  · intro h
    cases e with
    | exitError sys =>
        cases sys with
        | waitStatus stat => exact absurd rfl (h stat)
        | otherSys => rfl
    | errorString msg => rfl

/-- Witness for C1: an abnormal exit carrying status 7 is turned into exit
code 7 with no error, while a plain error is kept with exit code 0. -/
theorem watcher_classifies_wait_error_witness :
    classifyWait (some (GoError.exitError (SysValue.waitStatus ⟨7⟩))) =
      (7, none) ∧
    classifyWait (some (GoError.errorString ("wait failure"))) =
      (0, some (GoError.errorString ("wait failure"))) := by
  constructor
  · exact (watcher_classifies_wait_error _).1 ⟨7⟩ rfl
  · refine (watcher_classifies_wait_error _).2 ?_
    intro stat h
    simp at h

/-- C2: in every asyncWait trace the deferred close runs and is the last
event, and whenever the terminal pair is sent on the channel the same pair
was stored into the cache strictly before the send and the close comes
strictly after the send. -/
theorem watcher_store_send_close_order (waitErr : Option GoError) (k : Nat) :
    (asyncWaitTrace waitErr k).getLast? = some WatchEvent.closeCh ∧
    (∀ st : ExitCodeOrError,
      WatchEvent.send st ∈ asyncWaitTrace waitErr k →
      ∃ i j l : Nat, i < j ∧ j < l ∧
        (asyncWaitTrace waitErr k).get? i = some (WatchEvent.store st) ∧
        (asyncWaitTrace waitErr k).get? j = some (WatchEvent.send st) ∧
        (asyncWaitTrace waitErr k).get? l = some WatchEvent.closeCh) := by
  unfold asyncWaitTrace asyncWaitBody sendExitCodeOrErrorEvents
  match k with
  | 0 =>
      refine ⟨rfl, ?_⟩
      intro st hmem
      simp [List.take] at hmem
  | 1 =>
      refine ⟨rfl, ?_⟩
      intro st hmem
      simp [List.take] at hmem
  | Nat.succ (Nat.succ n) =>
      constructor
      · simp [List.take]
      · intro st hmem
        simp [List.take] at hmem
        refine ⟨0, 1, 2, by omega, by omega, ?_, ?_, ?_⟩
        · simp [List.take, hmem]
        · simp [List.take, hmem]
        · simp [List.take]

/-- Witness for C2: in the complete trace for a clean wait, the zero pair
is stored at index 0, sent at index 1, and the close follows at index 2. -/
theorem watcher_store_send_close_order_witness :
    ∃ i j l : Nat, i < j ∧ j < l ∧
      (asyncWaitTrace none 2).get? i = some (WatchEvent.store ⟨0, none⟩) ∧
      (asyncWaitTrace none 2).get? j = some (WatchEvent.send ⟨0, none⟩) ∧
      (asyncWaitTrace none 2).get? l = some WatchEvent.closeCh :=
  (watcher_store_send_close_order none 2).2 ⟨0, none⟩ (by decide)

/-- C3: Wait on a channel that is already closed and drained returns a
terminal result whose error is the already-exited sentinel, rather than
blocking forever (blocking is modelled by none) or panicking. -/
theorem wait_on_closed_drained_returns_sentinel :
    WaitModel ChanRecvView.closedDrained =
      some ⟨0, some (GoError.errorString ("Exited already"))⟩ := rfl

/-- C4: Kill on a group-kill-capable platform: it resolves the group id
first and returns a resolution error without attempting termination; a
failure of the SIGKILL signal sent to the negated group id is returned
without waiting; otherwise Kill waits for the published terminal result and
returns the error captured in it. -/
theorem kill_group_platform_behaviour (env : KillEnv) (app : App) (pid : Int)
    (hp : app.cmd.process = some pid) :
    (∀ e, env.getpgid pid = Except.error e →
      App.Kill true env app =
        GoResult.ok (some e, [KillStep.getpgidCall pid])) ∧
    (∀ pgid e, env.getpgid pid = Except.ok pgid →
        env.killSignal (-pgid) SIGKILL = some e →
      App.Kill true env app = GoResult.ok (some e,
        [KillStep.getpgidCall pid, KillStep.killSignalCall (-pgid) SIGKILL])) ∧
    (∀ pgid, env.getpgid pid = Except.ok pgid →
        env.killSignal (-pgid) SIGKILL = none →
      App.Kill true env app = GoResult.ok (env.waitResult.Error,
        [KillStep.getpgidCall pid, KillStep.killSignalCall (-pgid) SIGKILL,
         KillStep.waitCall])) := by
  refine ⟨?_, ?_, ?_⟩
  · intro e h
    simp [App.Kill, hp, h]
  · intro pgid e h1 h2
    simp [App.Kill, hp, h1, h2]
  · intro pgid h1 h2
    simp [App.Kill, hp, h1, h2]

/-- Sample already-started controller used by concrete witnesses. -/
def startedApp : App :=
  { cmd := { execCommand ("sleep") (["5"]) with process := some 3 },
    waitCh := some ChanRecvView.noSender,
    exitCodeOrError := none,
    watcherSpawned := true }

/-- Sample Kill oracles: group id 5 resolves, the signal succeeds, and the
watcher publishes a clean result. -/
def killEnvOkSample : KillEnv :=
  { getpgid := fun _ => Except.ok 5,
    killSignal := fun _ _ => none,
    processKill := none,
    waitResult := ⟨0, none⟩ }

/-- Witness for C4: the successful path signals -5 and then waits. -/
theorem kill_group_platform_behaviour_witness :
    App.Kill true killEnvOkSample startedApp = GoResult.ok (none,
      [KillStep.getpgidCall 3, KillStep.killSignalCall (-5) SIGKILL,
       KillStep.waitCall]) :=
  (kill_group_platform_behaviour killEnvOkSample startedApp 3 rfl).2.2 5 rfl rfl

/-- C5: Start on launch failure returns the launch error and leaves the
wait channel, watcher, process handle and cached result untouched; on
launch success it returns a fresh completion channel that is also recorded
as the controller's wait channel, with the watcher spawned and no error. -/
theorem start_failure_and_success (launch : Except GoError Int) (app : App)
    (stdin stdout stderr : Option Nat) :
    (∀ e, launch = Except.error e →
      (App.Start launch app stdin stdout stderr).1 = Except.error e ∧
      (App.Start launch app stdin stdout stderr).2.waitCh = app.waitCh ∧
      (App.Start launch app stdin stdout stderr).2.watcherSpawned =
        app.watcherSpawned ∧
      (App.Start launch app stdin stdout stderr).2.cmd.process =
        app.cmd.process ∧
      (App.Start launch app stdin stdout stderr).2.exitCodeOrError =
        app.exitCodeOrError) ∧
    (∀ pid, launch = Except.ok pid →
      (App.Start launch app stdin stdout stderr).1 =
        Except.ok ChanRecvView.noSender ∧
      (App.Start launch app stdin stdout stderr).2.waitCh =
        some ChanRecvView.noSender ∧
      (App.Start launch app stdin stdout stderr).2.watcherSpawned = true) := by
  constructor
  · intro e h
    subst h
    simp [App.Start]
  · intro pid h
    subst h
    simp [App.Start]

/-- Witness for C5: a failed launch of a fresh controller returns the error
and creates nothing; a successful launch returns the fresh channel. -/
theorem start_failure_and_success_witness :
    ((App.Start (Except.error (GoError.errorString ("no such file")))
        (NewApp ("ls") ([])) none none none).1 =
      Except.error (GoError.errorString ("no such file")) ∧
     (App.Start (Except.error (GoError.errorString ("no such file")))
        (NewApp ("ls") ([])) none none none).2.waitCh = none ∧
     (App.Start (Except.error (GoError.errorString ("no such file")))
        (NewApp ("ls") ([])) none none none).2.watcherSpawned = false ∧
     (App.Start (Except.error (GoError.errorString ("no such file")))
        (NewApp ("ls") ([])) none none none).2.cmd.process = none ∧
     (App.Start (Except.error (GoError.errorString ("no such file")))
        (NewApp ("ls") ([])) none none none).2.exitCodeOrError = none) ∧
    (App.Start (Except.ok 3) (NewApp ("ls") ([])) none none none).1 =
      Except.ok ChanRecvView.noSender :=
  ⟨(start_failure_and_success (Except.error (GoError.errorString
      ("no such file"))) (NewApp ("ls") ([])) none none none).1 _ rfl,
   ((start_failure_and_success (Except.ok 3)
      (NewApp ("ls") ([])) none none none).2 3 rfl).1⟩

/-- C6: Run agrees with the spec-side composition (Start followed, on
success, by Wait), and on Start failure it returns a terminal result
carrying the launch error with exit code 0. -/
theorem run_is_start_then_wait (launch : Except GoError Int)
    (chAtWait : ChanRecvView) (app : App) (stdin stdout stderr : Option Nat) :
    App.Run launch chAtWait app stdin stdout stderr =
      RunSpecComposition launch chAtWait app stdin stdout stderr ∧
    (∀ e, launch = Except.error e →
      App.Run launch chAtWait app stdin stdout stderr = some ⟨0, some e⟩) := by
  constructor
  · cases launch with
    | error e => simp [App.Run, RunSpecComposition, App.Start]
    | ok pid => simp [App.Run, RunSpecComposition, App.Start]
  · intro e h
    subst h
    simp [App.Run, App.Start]

/-- Witness for C6: a failed launch makes Run return the error at code 0. -/
theorem run_is_start_then_wait_witness :
    App.Run (Except.error (GoError.errorString ("absent")))
        ChanRecvView.noSender (NewApp ("ls") ([])) none none none =
      some ⟨0, some (GoError.errorString ("absent"))⟩ :=
  (run_is_start_then_wait (Except.error (GoError.errorString ("absent")))
      ChanRecvView.noSender (NewApp ("ls") ([])) none none none).2 _ rfl

/-- C7: on a controller with no explicit environment, the first call to
AddEnvironments seeds the inherited environment and appends its entries,
and a second call appends its entries after the base and the first call's
entries, preserving order. -/
theorem add_environments_appends (osEnviron : List String) (app : App)
    (e1 e2 : List String) (h : app.cmd.env = none) :
    (App.AddEnvironments osEnviron app e1).cmd.env =
      some (osEnviron ++ e1) ∧
    (App.AddEnvironments osEnviron
        (App.AddEnvironments osEnviron app e1) e2).cmd.env =
      some ((osEnviron ++ e1) ++ e2) := by
  constructor
  · simp [App.AddEnvironments, h]
  · simp [App.AddEnvironments, h]

/-- Witness for C7: two calls on a fresh controller stack base, first and
second entries in order. -/
theorem add_environments_appends_witness :
    (App.AddEnvironments (["HOME=/root"])
        (App.AddEnvironments (["HOME=/root"]) (NewApp ("ls") ([]))
          (["A=1"])) (["B=2"])).cmd.env =
      some ((["HOME=/root"] ++ ["A=1"]) ++ ["B=2"]) :=
  (add_environments_appends (["HOME=/root"]) (NewApp ("ls") ([]))
    (["A=1"]) (["B=2"]) rfl).2

/-- C8: CheckIsInstalled builds a controller for the which utility with the
target path as its sole argument, and maps the synchronous run outcome: a
run error is returned as-is, a non-zero exit becomes the descriptive
does-not-exist error, and a clean zero exit yields nil. -/
theorem check_is_installed_behaviour (app : App) (st : ExitCodeOrError) :
    (App.CheckIsInstalled st app).1.cmd.path = "which" ∧
    (App.CheckIsInstalled st app).1.cmd.args = [app.cmd.path] ∧
    (∀ e, st.Error = some e → (App.CheckIsInstalled st app).2 = some e) ∧
    (st.Error = none → st.ExitCode ≠ 0 →
      (App.CheckIsInstalled st app).2 = some (GoError.errorString
        (("App \"" ++ app.cmd.path) ++ ("\" does not exist")))) ∧
    (st.Error = none → st.ExitCode = 0 →
      (App.CheckIsInstalled st app).2 = none) := by
  refine ⟨rfl, rfl, ?_, ?_, ?_⟩
  · intro e h
    simp [App.CheckIsInstalled, h]
  · intro h1 h2
    simp [App.CheckIsInstalled, h1, h2]
  · intro h1 h2
    simp [App.CheckIsInstalled, h1, h2]

/-- Witness for C8: a which run exiting 1 yields the descriptive error, and
a clean which run yields nil. -/
theorem check_is_installed_behaviour_witness :
    (App.CheckIsInstalled ⟨1, none⟩ (NewApp ("foo") ([]))).2 =
      some (GoError.errorString
        (("App \"" ++ "foo") ++ ("\" does not exist"))) ∧
    (App.CheckIsInstalled ⟨0, none⟩ (NewApp ("foo") ([]))).2 = none :=
  ⟨(check_is_installed_behaviour (NewApp ("foo") ([]))
      ⟨1, none⟩).2.2.2.1 rfl (by decide),
   (check_is_installed_behaviour (NewApp ("foo") ([]))
      ⟨0, none⟩).2.2.2.2 rfl rfl⟩

/-- C9: querying the cached result before the watcher has stored anything
makes the atomic load yield nil and the unconditional type assertion fail:
the query panics instead of returning a sentinel or an error. -/
theorem exit_code_query_before_completion_panics (app : App)
    (h : app.exitCodeOrError = none) :
    App.exitCodeOrErrorQuery app = GoResult.panicked nilAssertionPanicMsg := by
  simp [App.exitCodeOrErrorQuery, h]

/-- Witness for C9: a freshly constructed controller panics on the query. -/
theorem exit_code_query_before_completion_panics_witness :
    App.exitCodeOrErrorQuery (NewApp ("ls") ([])) =
      GoResult.panicked nilAssertionPanicMsg :=
  exit_code_query_before_completion_panics (NewApp ("ls") ([])) rfl

/-- C10: Kill on a controller whose process was never launched dereferences
the nil process handle (reading its pid on the group path, or signalling
through it on the single-process path) and panics instead of returning an
error, on either platform. -/
theorem kill_without_start_panics (supportsGroups : Bool) (env : KillEnv)
    (app : App) (h : app.cmd.process = none) :
    App.Kill supportsGroups env app =
      GoResult.panicked nilProcessPanicMsg := by
  simp [App.Kill, h]

/-- Witness for C10: a freshly constructed, never-started controller panics
on Kill on the group-kill platform. -/
theorem kill_without_start_panics_witness :
    App.Kill true killEnvOkSample (NewApp ("ls") ([])) =
      GoResult.panicked nilProcessPanicMsg :=
  kill_without_start_panics true killEnvOkSample (NewApp ("ls") ([])) rfl
